import Mathlib

/-!
# Verification of `DepthMaskMaterial` (src/src/materials/DepthMaskMaterial.js)

A shallow embedding of the depth-mask configuration engine: the depth-test
strategy enumeration, the epsilon define, the depth-mode switch that compiles
a per-pixel keep predicate string, and the legacy `keepFar` boolean alias.

Numeric JS values are modelled as rationals (ℚ).  The define values that the
source stores as decimal strings produced by `Number.prototype.toFixed(d)`
are modelled by the rational each such string denotes: `toFixed(d)` rounds
its receiver to `d` decimal places (ties away from zero on the magnitude,
per the ECMAScript algorithm), and `Number(...)` of the resulting string
recovers exactly that rounded rational.  The compiled predicate text
(`defines["depthTest(d0, d1)"]`) is kept verbatim as a `String`, and its
meaning over a depth pair is given by an evaluator for exactly the
comparison expressions the source emits.
-/

/-- `Number.prototype.toFixed(digits)` as a map on the denoted rationals:
round to `digits` decimal places, ties away from zero (the ECMAScript
algorithm takes the absolute value, picks the closest integer numerator and
the larger one at a tie, then restores the sign). -/
def jsToFixed (digits : ℕ) (v : ℚ) : ℚ :=
  let p : ℚ := 10 ^ digits
  if v < 0 then -(((⌊(-v) * p + 1/2⌋ : ℤ) : ℚ) / p) else ((⌊v * p + 1/2⌋ : ℤ) : ℚ) / p

/-- three.js depth-mode constant `NeverDepth`. -/
def NeverDepth : ℕ := 0

/-- three.js depth-mode constant `AlwaysDepth`. -/
def AlwaysDepth : ℕ := 1

/-- three.js depth-mode constant `LessDepth`. -/
def LessDepth : ℕ := 2

/-- three.js depth-mode constant `LessEqualDepth`. -/
def LessEqualDepth : ℕ := 3

/-- three.js depth-mode constant `EqualDepth`. -/
def EqualDepth : ℕ := 4

/-- three.js depth-mode constant `GreaterEqualDepth`. -/
def GreaterEqualDepth : ℕ := 5

/-- three.js depth-mode constant `GreaterDepth`. -/
def GreaterDepth : ℕ := 6

/-- three.js depth-mode constant `NotEqualDepth`. -/
def NotEqualDepth : ℕ := 7

namespace DepthTestStrategy

/-- `DepthTestStrategy.DEFAULT = 0`. -/
def DEFAULT : ℚ := 0

/-- `DepthTestStrategy.KEEP_MAX_DEPTH = 1`. -/
def KEEP_MAX_DEPTH : ℚ := 1

/-- `DepthTestStrategy.DISCARD_MAX_DEPTH = 2`. -/
def DISCARD_MAX_DEPTH : ℚ := 2

/-- `DepthTestStrategy.KEEP`: this property does not exist on the exported
object, so reading it yields `undefined`, modelled as `none`. -/
def KEEP : Option ℚ := none

end DepthTestStrategy

/-- The material's `defines` entries that the class reads and writes.
`DEPTH_EPSILON` and `DEPTH_TEST_STRATEGY` are stored as numeric strings in
the source; here each is the rational its string denotes.  `depthTest` is
the literal text stored under the key `"depthTest(d0, d1)"`. -/
structure Defines where
  DEPTH_EPSILON : ℚ
  DEPTH_TEST_STRATEGY : ℚ
  depthTest : String
deriving Repr, DecidableEq

/-- The mutable state of a `DepthMaskMaterial`: its defines, the `depthMode`
field, and the inherited `needsUpdate` flag. -/
structure DepthMaskMaterial where
  defines : Defines
  depthMode : ℕ
  needsUpdate : Bool
deriving Repr, DecidableEq

namespace DepthMaskMaterial

/-- `getMaxDepthStrategy()`: `Number(this.defines.DEPTH_TEST_STRATEGY)`. -/
def getMaxDepthStrategy (s : DepthMaskMaterial) : ℚ :=
  s.defines.DEPTH_TEST_STRATEGY

/-- `setMaxDepthStrategy(value)`: stores `value.toFixed(0)` and sets
`needsUpdate = true`. -/
def setMaxDepthStrategy (value : ℚ) (s : DepthMaskMaterial) : DepthMaskMaterial :=
  { s with
    defines := { s.defines with DEPTH_TEST_STRATEGY := jsToFixed 0 value }
    needsUpdate := true }

/-- `getEpsilon()`: `Number(this.defines.DEPTH_EPSILON)`. -/
def getEpsilon (s : DepthMaskMaterial) : ℚ :=
  s.defines.DEPTH_EPSILON

/-- `setEpsilon(value)`: stores `value.toFixed(16)` and sets
`needsUpdate = true`. -/
def setEpsilon (value : ℚ) (s : DepthMaskMaterial) : DepthMaskMaterial :=
  { s with
    defines := { s.defines with DEPTH_EPSILON := jsToFixed 16 value }
    needsUpdate := true }

/-- `getDepthMode()`. -/
def getDepthMode (s : DepthMaskMaterial) : ℕ :=
  s.depthMode

/-- The `switch(mode)` of `setDepthMode`: the predicate text chosen for each
mode, with `GreaterDepth` sharing the `default` branch. -/
def depthTestSource (mode : ℕ) : String :=
  if mode = NeverDepth then "false"
  else if mode = AlwaysDepth then "true"
  else if mode = EqualDepth then "abs(d1 - d0) <= DEPTH_EPSILON"
  else if mode = NotEqualDepth then "abs(d1 - d0) > DEPTH_EPSILON"
  else if mode = LessDepth then "d0 > d1"
  else if mode = LessEqualDepth then "d0 >= d1"
  else if mode = GreaterEqualDepth then "d0 <= d1"
  else "d0 < d1"

/-- `setDepthMode(mode)`: selects the predicate text, records the mode,
stores the text under `defines["depthTest(d0, d1)"]` and sets
`needsUpdate = true`. -/
def setDepthMode (mode : ℕ) (s : DepthMaskMaterial) : DepthMaskMaterial :=
  { s with
    depthMode := mode
    defines := { s.defines with depthTest := depthTestSource mode }
    needsUpdate := true }

/-- `get keepFar()`: `getMaxDepthStrategy() === DepthTestStrategy.KEEP`.
`DepthTestStrategy.KEEP` is `undefined`, and JS strict equality between a
number and `undefined` is `false`; strict equality on the `Option ℚ` model
compares the constructors first. -/
def keepFar (s : DepthMaskMaterial) : Bool :=
  match some s.getMaxDepthStrategy, DepthTestStrategy.KEEP with
  | some a, some b => a == b
  | none, none => true
  | _, _ => false

/-- `set keepFar(value)`: forwards to `setMaxDepthStrategy` with
`KEEP_MAX_DEPTH` when the flag is true and `DISCARD_MAX_DEPTH` otherwise. -/
def setKeepFar (value : Bool) (s : DepthMaskMaterial) : DepthMaskMaterial :=
  setMaxDepthStrategy
    (if value then DepthTestStrategy.KEEP_MAX_DEPTH
     else DepthTestStrategy.DISCARD_MAX_DEPTH) s

/-- The constructor: `defines` start at `DEPTH_EPSILON = "0.00001"` and
`DEPTH_TEST_STRATEGY = KEEP_MAX_DEPTH`, then `setDepthMode(LessDepth)` is
invoked (after `this.depthMode = LessDepth`). -/
def init : DepthMaskMaterial :=
  setDepthMode LessDepth
    { defines :=
        { DEPTH_EPSILON := 1/100000
          DEPTH_TEST_STRATEGY := DepthTestStrategy.KEEP_MAX_DEPTH
          depthTest := "" }
      depthMode := LessDepth
      needsUpdate := false }

end DepthMaskMaterial

/-- Meaning of the emitted predicate text over a depth pair: evaluates
exactly the comparison expressions `setDepthMode` can emit, with
`DEPTH_EPSILON` bound to the stored epsilon.  A true result keeps the texel;
a false result discards it. -/
def evalDepthTest (src : String) (eps d0 d1 : ℚ) : Bool :=
  if src = "false" then false
  else if src = "true" then true
  else if src = "abs(d1 - d0) <= DEPTH_EPSILON" then decide (|d1 - d0| ≤ eps)
  else if src = "abs(d1 - d0) > DEPTH_EPSILON" then decide (|d1 - d0| > eps)
  else if src = "d0 > d1" then decide (d0 > d1)
  else if src = "d0 >= d1" then decide (d0 ≥ d1)
  else if src = "d0 <= d1" then decide (d0 ≤ d1)
  else if src = "d0 < d1" then decide (d0 < d1)
  else false

/-- The keep decision of a material's compiled predicate on a depth pair. -/
def keepDecision (s : DepthMaskMaterial) (d0 d1 : ℚ) : Bool :=
  evalDepthTest s.defines.depthTest s.defines.DEPTH_EPSILON d0 d1

/-- A dynamically typed JS argument: a number, or any non-numeric value
(`undefined`, `null`, a string, ...) on which `value.toFixed(...)` throws a
`TypeError`. -/
inductive JsVal where
  | num (q : ℚ)
  | nonNum
deriving Repr, DecidableEq

/-- `value.toFixed(digits)` on a dynamic argument: succeeds exactly on
numbers, throws a `TypeError` otherwise. -/
def JsVal.toFixed (v : JsVal) (digits : ℕ) : Except String ℚ :=
  match v with
  | .num q => .ok (jsToFixed digits q)
  | .nonNum => .error "TypeError"

namespace DepthMaskMaterial

/-- `setEpsilon(value)` with JS evaluation order made explicit: the
assignment's right-hand side `value.toFixed(16)` is evaluated first and may
throw, in which case neither `defines.DEPTH_EPSILON` nor `needsUpdate` has
been assigned yet; the result is the state after the call paired with the
thrown error, if any. -/
def setEpsilonJS (value : JsVal) (s : DepthMaskMaterial) :
    DepthMaskMaterial × Option String :=
  match value.toFixed 16 with
  | .error e => (s, some e)
  | .ok q =>
    ({ s with
       defines := { s.defines with DEPTH_EPSILON := q }
       needsUpdate := true }, none)

/-- `setMaxDepthStrategy(value)` with JS evaluation order made explicit:
`value.toFixed(0)` is evaluated before either assignment and may throw. -/
def setMaxDepthStrategyJS (value : JsVal) (s : DepthMaskMaterial) :
    DepthMaskMaterial × Option String :=
  match value.toFixed 0 with
  | .error e => (s, some e)
  | .ok q =>
    ({ s with
       defines := { s.defines with DEPTH_TEST_STRATEGY := q }
       needsUpdate := true }, none)

end DepthMaskMaterial

open DepthMaskMaterial

/-- `evalDepthTest` on the text `setDepthMode` emits agrees with the direct
semantics of the chosen mode; stated per mode below via this bridge. -/
theorem evalDepthTest_depthTestSource (mode : ℕ) (eps d0 d1 : ℚ) :
    evalDepthTest (depthTestSource mode) eps d0 d1 =
      if mode = NeverDepth then false
      else if mode = AlwaysDepth then true
      else if mode = EqualDepth then decide (|d1 - d0| ≤ eps)
      else if mode = NotEqualDepth then decide (|d1 - d0| > eps)
      else if mode = LessDepth then decide (d0 > d1)
      else if mode = LessEqualDepth then decide (d0 ≥ d1)
      else if mode = GreaterEqualDepth then decide (d0 ≤ d1)
      else decide (d0 < d1) := by
  unfold depthTestSource
  split
  · rfl
  · split
    · rfl
    · split
      · rfl
      · split
        · rfl
        · split
          · rfl
          · split
            · rfl
            · split
              · rfl
              · rfl

/-- C1: for each of the eight depth modes, `setDepthMode` installs a
predicate whose keep decision over any depth pair `(d0, d1)` matches the
truth table — Never: false, Always: true, Equal: `|d1 - d0| ≤ ε`,
NotEqual: `|d1 - d0| > ε`, Less: `d0 > d1`, LessOrEqual: `d0 ≥ d1`,
Greater: `d0 < d1`, GreaterOrEqual: `d0 ≤ d1` — and at the boundary
`d0 = d1` the inequality modes decide false, true, false, true
respectively. -/
theorem C1_depthMode_truth_table (s : DepthMaskMaterial) (d0 d1 : ℚ) :
    keepDecision (setDepthMode NeverDepth s) d0 d1 = false ∧
    keepDecision (setDepthMode AlwaysDepth s) d0 d1 = true ∧
    keepDecision (setDepthMode EqualDepth s) d0 d1 =
      decide (|d1 - d0| ≤ s.defines.DEPTH_EPSILON) ∧
    keepDecision (setDepthMode NotEqualDepth s) d0 d1 =
      decide (|d1 - d0| > s.defines.DEPTH_EPSILON) ∧
    keepDecision (setDepthMode LessDepth s) d0 d1 = decide (d0 > d1) ∧
    keepDecision (setDepthMode LessEqualDepth s) d0 d1 = decide (d0 ≥ d1) ∧
    keepDecision (setDepthMode GreaterDepth s) d0 d1 = decide (d0 < d1) ∧
    keepDecision (setDepthMode GreaterEqualDepth s) d0 d1 = decide (d0 ≤ d1) ∧
    keepDecision (setDepthMode LessDepth s) d0 d0 = false ∧
    keepDecision (setDepthMode LessEqualDepth s) d0 d0 = true ∧
    keepDecision (setDepthMode GreaterDepth s) d0 d0 = false ∧
    keepDecision (setDepthMode GreaterEqualDepth s) d0 d0 = true := by
  refine ⟨rfl, rfl, rfl, rfl, rfl, rfl, rfl, rfl, ?_, ?_, ?_, ?_⟩
  · show decide (d0 > d0) = false
    simp
  · show decide (d0 ≥ d0) = true
    simp
  · show decide (d0 < d0) = false
    simp
  · show decide (d0 ≤ d0) = true
    simp

/-- C2: for any mode value outside the eight-element enumeration,
`setDepthMode` falls through to the `default` branch and installs the
`GreaterDepth` predicate (keep iff `d0 < d1`); the call is accepted and
records the unrecognized mode. -/
theorem C2_unrecognized_mode_fallback (mode : ℕ) (s : DepthMaskMaterial)
    (d0 d1 : ℚ)
    (h : mode ∉ [NeverDepth, AlwaysDepth, EqualDepth, NotEqualDepth,
      LessDepth, LessEqualDepth, GreaterDepth, GreaterEqualDepth]) :
    keepDecision (setDepthMode mode s) d0 d1 = decide (d0 < d1) ∧
    keepDecision (setDepthMode mode s) d0 d1 =
      keepDecision (setDepthMode GreaterDepth s) d0 d1 ∧
    (setDepthMode mode s).depthMode = mode := by
  simp only [List.mem_cons, not_or] at h
  obtain ⟨h0, h1, h4, h7, h2, h3, h6, h5, -⟩ := h
  have hmain : keepDecision (setDepthMode mode s) d0 d1 = decide (d0 < d1) := by
    show evalDepthTest (depthTestSource mode) _ _ _ = _
    rw [evalDepthTest_depthTestSource]
    simp [h0, h1, h2, h3, h4, h5, h6, h7]
  exact ⟨hmain, hmain.trans rfl, rfl⟩

/-- Witness for C2 at the concrete unrecognized mode `42`. -/
theorem C2_unrecognized_mode_fallback_witness :
    keepDecision (setDepthMode 42 DepthMaskMaterial.init) 0 1 = decide ((0:ℚ) < 1) :=
  (C2_unrecognized_mode_fallback 42 DepthMaskMaterial.init 0 1 (by decide)).1

/-- C3 counterexample: the stored representation is `toFixed(16)`, which
rounds to 16 decimal places, so the very small positive epsilon `1e-17`
does not round-trip — `setEpsilon(1e-17)` followed by `getEpsilon()`
returns `0`, not a nonzero value. -/
theorem C3_small_epsilon_counterexample :
    (0:ℚ) < 1/10^17 ∧
    getEpsilon (setEpsilon (1/10^17) DepthMaskMaterial.init) = 0 := by
  constructor
  · norm_num
  · show jsToFixed 16 (1/10^17) = 0
    norm_num [jsToFixed]

/-- C3 amended: `setEpsilon`/`getEpsilon` round-trips exactly the
non-negative values representable in 16 decimal places (integer multiples
of `10^-16`); smaller positive values are rounded and can truncate to
zero. -/
theorem C3_epsilon_roundtrip_16_decimals (s : DepthMaskMaterial) (v : ℚ)
    (h0 : 0 ≤ v) (hn : ∃ n : ℤ, v = n / 10 ^ 16) :
    getEpsilon (setEpsilon v s) = v := by
  obtain ⟨n, rfl⟩ := hn
  show jsToFixed 16 _ = _
  unfold jsToFixed
  rw [if_neg (not_lt.mpr h0)]
  rw [show ((n:ℚ)/10^16 * 10^16 : ℚ) = n by field_simp]
  rw [Int.floor_int_add]
  norm_num

/-- Witness for C3's amended statement at the default epsilon `1e-5`. -/
theorem C3_epsilon_roundtrip_witness :
    getEpsilon (setEpsilon (1/100000) DepthMaskMaterial.init) = 1/100000 :=
  C3_epsilon_roundtrip_16_decimals DepthMaskMaterial.init (1/100000)
    (by norm_num) ⟨10 ^ 11, by norm_num⟩

/-- C4: the deprecated `keepFar` getter compares the strategy against the
non-existent `DepthTestStrategy.KEEP` (which reads as `undefined`), so it
returns `false` whatever strategy the material holds — including right
after `keepFar = true` stored `KEEP_MAX_DEPTH` — and the boolean alias does
not round-trip through its own getter. -/
theorem C4_keepFar_getter_always_false (s : DepthMaskMaterial) (b : Bool) :
    keepFar s = false ∧
    keepFar (setKeepFar true s) = false ∧
    keepFar (setKeepFar b s) = false :=
  ⟨rfl, rfl, rfl⟩

/-- C5: the `keepFar` setter maps `true` to `KEEP_MAX_DEPTH` (code 1) and
`false` to `DISCARD_MAX_DEPTH` (code 2); in particular after
`keepFar = false`, `getMaxDepthStrategy()` returns 2. -/
theorem C5_keepFar_setter_strategy (s : DepthMaskMaterial) :
    getMaxDepthStrategy (setKeepFar false s) = DepthTestStrategy.DISCARD_MAX_DEPTH ∧
    getMaxDepthStrategy (setKeepFar false s) = 2 ∧
    getMaxDepthStrategy (setKeepFar true s) = DepthTestStrategy.KEEP_MAX_DEPTH ∧
    getMaxDepthStrategy (setKeepFar true s) = 1 := by
  have h2 : jsToFixed 0 2 = 2 := by
    norm_num [jsToFixed]
  have h1 : jsToFixed 0 1 = 1 := by
    norm_num [jsToFixed]
  exact ⟨h2, h2, h1, h1⟩

/-- C6 counterexample: `setEpsilon(-0.001)` is not rejected — no error is
raised, the negative value is stored (and read back by `getEpsilon`), and
the predicate is merely marked stale. -/
theorem C6_negative_epsilon_counterexample :
    (setEpsilonJS (JsVal.num (-1/1000)) DepthMaskMaterial.init).2 = none ∧
    getEpsilon (setEpsilonJS (JsVal.num (-1/1000)) DepthMaskMaterial.init).1 = -1/1000 := by
  constructor
  · rfl
  · show jsToFixed 16 (-1/1000) = -1/1000
    norm_num [jsToFixed]

/-- C6 amended: for every negative `v`, `setEpsilon(v)` is accepted
without any error — the rounded value is silently stored and the dirty
flag set; no `ConfigurationError` exists in the code. -/
theorem C6_negative_epsilon_accepted (s : DepthMaskMaterial) (v : ℚ)
    (_h : v < 0) :
    (setEpsilonJS (JsVal.num v) s).2 = none ∧
    (setEpsilonJS (JsVal.num v) s).1.defines.DEPTH_EPSILON = jsToFixed 16 v ∧
    (setEpsilonJS (JsVal.num v) s).1.needsUpdate = true :=
  ⟨rfl, rfl, rfl⟩

/-- Witness for C6's amended statement at `v = -0.001`. -/
theorem C6_negative_epsilon_accepted_witness :
    (setEpsilonJS (JsVal.num (-1/1000)) DepthMaskMaterial.init).2 = none ∧
    (setEpsilonJS (JsVal.num (-1/1000)) DepthMaskMaterial.init).1.needsUpdate = true := by
  have h := C6_negative_epsilon_accepted DepthMaskMaterial.init (-1/1000) (by norm_num)
  exact ⟨h.1, h.2.2⟩

/-- C7: every setter — `setDepthMode`, `setEpsilon`, `setMaxDepthStrategy`
— unconditionally sets `needsUpdate = true`, including when called with the
value already held. -/
theorem C7_setters_always_dirty (s : DepthMaskMaterial) (mode : ℕ) (v w : ℚ) :
    (setDepthMode mode s).needsUpdate = true ∧
    (setEpsilon v s).needsUpdate = true ∧
    (setMaxDepthStrategy w s).needsUpdate = true ∧
    (setDepthMode s.depthMode s).needsUpdate = true ∧
    (setEpsilon (getEpsilon s) s).needsUpdate = true ∧
    (setMaxDepthStrategy (getMaxDepthStrategy s) s).needsUpdate = true :=
  ⟨rfl, rfl, rfl, rfl, rfl, rfl⟩

/-- C8: setters are atomic — when `setEpsilon` or `setMaxDepthStrategy`
throws (non-numeric argument: `toFixed` fails before any assignment), the
state is left entirely unchanged; on success the new value and the dirty
flag are both applied, and nothing else changes. -/
theorem C8_setters_atomic (v : JsVal) (s : DepthMaskMaterial) :
    ((setEpsilonJS v s).2.isSome = true → (setEpsilonJS v s).1 = s) ∧
    ((setEpsilonJS v s).2 = none →
      (setEpsilonJS v s).1.needsUpdate = true ∧
      ∃ q, v = JsVal.num q ∧
        (setEpsilonJS v s).1.defines.DEPTH_EPSILON = jsToFixed 16 q ∧
        (setEpsilonJS v s).1.defines.DEPTH_TEST_STRATEGY = s.defines.DEPTH_TEST_STRATEGY ∧
        (setEpsilonJS v s).1.defines.depthTest = s.defines.depthTest ∧
        (setEpsilonJS v s).1.depthMode = s.depthMode) ∧
    ((setMaxDepthStrategyJS v s).2.isSome = true → (setMaxDepthStrategyJS v s).1 = s) ∧
    ((setMaxDepthStrategyJS v s).2 = none →
      (setMaxDepthStrategyJS v s).1.needsUpdate = true ∧
      ∃ q, v = JsVal.num q ∧
        (setMaxDepthStrategyJS v s).1.defines.DEPTH_TEST_STRATEGY = jsToFixed 0 q ∧
        (setMaxDepthStrategyJS v s).1.defines.DEPTH_EPSILON = s.defines.DEPTH_EPSILON ∧
        (setMaxDepthStrategyJS v s).1.defines.depthTest = s.defines.depthTest ∧
        (setMaxDepthStrategyJS v s).1.depthMode = s.depthMode) := by
  cases v with
  | num q =>
    refine ⟨fun h => by simp [setEpsilonJS, JsVal.toFixed] at h, ?_,
      fun h => by simp [setMaxDepthStrategyJS, JsVal.toFixed] at h, ?_⟩
    · exact fun _ => ⟨rfl, q, rfl, rfl, rfl, rfl, rfl⟩
    · exact fun _ => ⟨rfl, q, rfl, rfl, rfl, rfl, rfl⟩
  | nonNum =>
    refine ⟨fun _ => rfl, fun h => by simp [setEpsilonJS, JsVal.toFixed] at h,
      fun _ => rfl, fun h => by simp [setMaxDepthStrategyJS, JsVal.toFixed] at h⟩

/-- Witness for C8: a throwing call leaves the material unchanged, and a
successful call sets the dirty flag. -/
theorem C8_setters_atomic_witness :
    (setEpsilonJS JsVal.nonNum DepthMaskMaterial.init).1 = DepthMaskMaterial.init ∧
    (setEpsilonJS (JsVal.num 5) DepthMaskMaterial.init).1.needsUpdate = true :=
  ⟨(C8_setters_atomic JsVal.nonNum DepthMaskMaterial.init).1 rfl,
   ((C8_setters_atomic (JsVal.num 5) DepthMaskMaterial.init).2.1 rfl).1⟩

/-- C9: epsilon never influences the keep decision outside the
`EqualDepth`/`NotEqualDepth` modes — two configurations that differ only in
epsilon decide every depth pair identically for every other mode value,
recognized or not. -/
theorem C9_epsilon_noninterference (mode : ℕ) (s : DepthMaskMaterial)
    (e1 e2 d0 d1 : ℚ) (h4 : mode ≠ EqualDepth) (h7 : mode ≠ NotEqualDepth) :
    keepDecision (setEpsilon e1 (setDepthMode mode s)) d0 d1 =
      keepDecision (setEpsilon e2 (setDepthMode mode s)) d0 d1 := by
  show evalDepthTest (depthTestSource mode) (jsToFixed 16 e1) d0 d1 =
    evalDepthTest (depthTestSource mode) (jsToFixed 16 e2) d0 d1
  rw [evalDepthTest_depthTestSource, evalDepthTest_depthTestSource]
  simp [h4, h7]

/-- Witness for C9 at mode `LessDepth`, epsilons 0 and 1, depths (0, 1). -/
theorem C9_epsilon_noninterference_witness :
    keepDecision (setEpsilon 0 (setDepthMode LessDepth DepthMaskMaterial.init)) 0 1 =
      keepDecision (setEpsilon 1 (setDepthMode LessDepth DepthMaskMaterial.init)) 0 1 :=
  C9_epsilon_noninterference LessDepth DepthMaskMaterial.init 0 1 0 1
    (by decide) (by decide)

/-- C10: compilation is deterministic and idempotent — applying the three
setters with equal arguments to any two materials yields identical defines
(hence byte-identical predicate text), `setDepthMode` alone installs the
same predicate text in any two materials, and re-running `setDepthMode`
with the unchanged mode reproduces the state exactly. -/
theorem C10_compile_deterministic_idempotent (mode : ℕ) (e st : ℚ)
    (s1 s2 : DepthMaskMaterial) :
    (setDepthMode mode (setEpsilon e (setMaxDepthStrategy st s1))).defines =
      (setDepthMode mode (setEpsilon e (setMaxDepthStrategy st s2))).defines ∧
    (setDepthMode mode s1).defines.depthTest =
      (setDepthMode mode s2).defines.depthTest ∧
    setDepthMode mode (setDepthMode mode s1) = setDepthMode mode s1 :=
  ⟨rfl, rfl, rfl⟩
